import Mathlib

/- Shallow embedding of the SimpleReg repository: thin wrapper classes that
   configure and invoke third-party image registration engines.
   Sources: src/simplereg/niftyreg.py,
   src/registrationtools/WrapItkRegistration.py,
   src/registrationtools/WrapperRegistration.py. -/

namespace SimpleReg

/- Python exceptions raised by the repository code. -/
inductive PyError where
  | valueError (msg : String)
  | unboundLocalError (msg : String)
  | attributeError (msg : String)
deriving DecidableEq

/- A SimpleITK image, abstracted to an identifier and its dimension. -/
structure SitkImage where
  tag : Nat
  dimension : Nat
deriving DecidableEq

/- The value sitk.AffineTransform(A.flatten(), t): a linear part and a
   translation, in dimension d. -/
structure SitkAffine (d : Nat) where
  linear : Matrix (Fin d) (Fin d) ℚ
  translation : Fin d → ℚ

/- The matrix R built in RegAladin._convert_to_sitk_transform (niftyreg.py
   lines 148-150): np.eye(dimension) with entries (0,0) and (1,1) set to -1.
   The code indexes R[1,1], so it is defined only for dimension at least 2;
   the embedding below therefore writes the dimension as n + 2. -/
def flipMatrix (d : Nat) : Matrix (Fin d) (Fin d) ℚ :=
  Matrix.diagonal fun i => if (i : Nat) < 2 then -1 else 1

/- RegAladin._convert_to_sitk_transform (niftyreg.py lines 137-156), for a
   fixed image of dimension d = n + 2.  The matrix M is the (d+1) x (d+1)
   array np.loadtxt read from the output transform file; A = M[0:d, 0:d] is
   its top-left d x d block and t = M[0:d, -1] the first d entries of its
   last column.  The function returns sitk.AffineTransform(R A R, R t). -/
def convertToSitkTransform (n : Nat)
    (M : Matrix (Fin (n + 3)) (Fin (n + 3)) ℚ) : SitkAffine (n + 2) where
  linear :=
    flipMatrix (n + 2) *
      (Matrix.of fun i j => M (Fin.castSucc i) (Fin.castSucc j)) *
      flipMatrix (n + 2)
  translation :=
    (flipMatrix (n + 2)).mulVec fun i => M (Fin.castSucc i) (Fin.last (n + 2))

/-- C1: RegAladin._convert_to_sitk_transform returns the SimpleITK affine
transform with linear part R*A*R and translation R*t, where R is the identity
with entries (0,0) and (1,1) negated: entrywise, A[i][j] changes sign exactly
when exactly one of i, j lies in {0, 1}, the first two components of t change
sign, and every other entry is unchanged. -/
theorem convertToSitkTransform_sign_flip (n : Nat)
    (M : Matrix (Fin (n + 3)) (Fin (n + 3)) ℚ) (i j : Fin (n + 2)) :
    (convertToSitkTransform n M).linear i j =
      (if ((i : Nat) < 2 ∧ ¬ (j : Nat) < 2) ∨ (¬ (i : Nat) < 2 ∧ (j : Nat) < 2)
        then -(M (Fin.castSucc i) (Fin.castSucc j))
        else M (Fin.castSucc i) (Fin.castSucc j)) ∧
    (convertToSitkTransform n M).translation i =
      (if (i : Nat) < 2
        then -(M (Fin.castSucc i) (Fin.last (n + 2)))
        else M (Fin.castSucc i) (Fin.last (n + 2))) := by
  constructor
  · simp only [convertToSitkTransform, flipMatrix]
    rw [Matrix.mul_diagonal, Matrix.diagonal_mul]
    by_cases hi : (i : Nat) < 2 <;> by_cases hj : (j : Nat) < 2 <;>
      simp [hi, hj]
  · simp only [convertToSitkTransform, flipMatrix]
    rw [Matrix.mulVec_diagonal]
    by_cases hi : (i : Nat) < 2 <;> simp [hi]

/- An ITK image, abstracted to an identifier, its pixel type and its
   dimension (the template arguments of itk.Image). -/
structure ItkImage where
  tag : Nat
  pixelType : String
  dimension : Nat
deriving DecidableEq

/- The constructor arguments of WrapItkRegistration
   (WrapItkRegistration.py lines 20-78). -/
structure WrapItkConfig where
  fixed : ItkImage
  moving : ItkImage
  dimension : Nat
  pixelType : String
  fixedMask : Option ItkImage
  movingMask : Option ItkImage
  registrationType : String
  metric : String
  interpolatorName : String
  initType : Option String
  optimizer : String
  useMultiresolutionFramework : Bool
  shrinkFactors : List Nat
  smoothingSigmas : List ℚ
  orientedGaussianFilter : Option Nat
  optimizerScales : Option (List ℚ)
deriving DecidableEq

/- The ITK transform type selected by the string dispatch in _run_v3
   (WrapItkRegistration.py lines 155-170). -/
inductive TransformType where
  | euler (dim : Nat)
  | similarity (dim : Nat)
  | affine (dim : Nat)
deriving DecidableEq

/- What _run_v3 marshals into the wrapped ImageRegistrationMethod pipeline
   before registration.Update() is executed: the selected transform type and
   interpolator, the metric, the four hard-coded optimizer settings
   (lines 212-215), whether a mask spatial object was attached to the metric
   for the moving and the fixed mask (lines 222-243), and the multi-resolution
   schedule ever passed to the pipeline (never: lines 279-282 raise instead). -/
structure PipelineResult where
  transformType : TransformType
  interpolatorUsed : String
  metricName : String
  gradientMagnitudeTolerance : ℚ
  minimumStepLength : ℚ
  numberOfIterations : Nat
  relaxationFactor : ℚ
  metricMovingMaskSet : Bool
  metricFixedMaskSet : Bool
  shrinkFactorsConfigured : Option (List Nat)
  smoothingSigmasConfigured : Option (List ℚ)
deriving DecidableEq

/- isinstance(img, itk.Image[pixel_type, dimension]) for the configured
   template arguments. -/
def isImageType (c : WrapItkConfig) (img : ItkImage) : Bool :=
  img.pixelType == c.pixelType && img.dimension == c.dimension

/- The transform-type dispatch block of _run_v3 (lines 155-170). -/
def dispatchTransformType (c : WrapItkConfig) : Except PyError TransformType :=
  if c.registrationType == "Rigid" then .ok (.euler c.dimension)
  else if c.registrationType == "Similarity" then .ok (.similarity c.dimension)
  else if c.registrationType == "Affine" then .ok (.affine c.dimension)
  else .error (.valueError
    ("Registration type \x27" ++ c.registrationType ++ "\x27 not known."))

/- The interpolator block of _run_v3 (lines 173-179): either the provided
   oriented-Gaussian filter is used, or eval looks the named
   InterpolateImageFunction up in the external itk module.  The external
   module is modelled by the predicate lib: when the name is absent the
   attribute lookup inside eval raises AttributeError. -/
def resolveInterpolator (lib : String → Bool) (c : WrapItkConfig) :
    Except PyError String :=
  match c.orientedGaussianFilter with
  | some _ => .ok "itkOrientedGaussianInterpolateImageFilter"
  | none =>
    if lib c.interpolatorName then .ok c.interpolatorName
    else .error (.attributeError
      ("itk." ++ c.interpolatorName ++ "InterpolateImageFunction"))

/- Whether the metric dispatch (lines 182-191) binds metric_type; for any
   other string metric_type stays unbound and metric_type.New() at line 221
   raises UnboundLocalError. -/
def metricKnown (c : WrapItkConfig) : Bool :=
  c.metric == "Correlation" || c.metric == "MattesMutualInformation" ||
    c.metric == "MeanSquares"

/- WrapItkRegistration._run_v3 (lines 152-327).  External constructor and
   setter calls on the wrapped itk objects are modelled by the fields of the
   PipelineResult they configure; registration.Update() is the external
   optimization and is modelled as producing the configured pipeline. -/
def runV3 (lib : String → Bool) (c : WrapItkConfig) :
    Except PyError PipelineResult :=
  match dispatchTransformType c with
  | .error e => .error e
  | .ok tt =>
    match resolveInterpolator lib c with
    | .error e => .error e
    | .ok interp =>
      if c.optimizer == "RegularStepGradientDescent" then
        if c.optimizerScales.isSome then
          .error (.valueError
            "No scales allowed for \x27ImageRegistrationMethod\x27")
        else if !(metricKnown c) then
          .error (.unboundLocalError
            "local variable metric_type referenced before assignment")
        else if c.useMultiresolutionFramework then
          .error (.valueError
            ("Multiresolution-Framework cannot be used with " ++
             "ImageRegistrationMethod. ImageRegistrationMethodv4 required."))
        else
          .ok { transformType := tt
                interpolatorUsed := interp
                metricName := c.metric
                gradientMagnitudeTolerance := 1 / 1000000
                minimumStepLength := 1 / 1000000
                numberOfIterations := 200
                relaxationFactor := 1 / 2
                metricMovingMaskSet := c.movingMask.isSome
                metricFixedMaskSet := c.fixedMask.isSome
                shrinkFactorsConfigured := none
                smoothingSigmasConfigured := none }
      else
        .error (.valueError
          "For \x27ImageRegistrationMethod\x27 only RegularStepGradientDescent")

/- WrapItkRegistration.run (lines 125-150): the four isinstance guards,
   then _run_v3. -/
def wrapItkRun (lib : String → Bool) (c : WrapItkConfig) :
    Except PyError PipelineResult :=
  if !(isImageType c c.fixed) then
    .error (.valueError "Fixed image must be of type itk.Image")
  else if !(isImageType c c.moving) then
    .error (.valueError "Moving image must be of type itk.Image")
  else if c.fixedMask.any (fun m => !(isImageType c m)) then
    .error (.valueError "Fixed image mask must be of type itk.Image")
  else if c.movingMask.any (fun m => !(isImageType c m)) then
    .error (.valueError "Moving image mask must be of type itk.Image")
  else runV3 lib c

/- The conjunction of the four isinstance guards of run. -/
def imagesOk (c : WrapItkConfig) : Bool :=
  isImageType c c.fixed && isImageType c c.moving &&
    c.fixedMask.all (isImageType c) && c.movingMask.all (isImageType c)

theorem wrapItkRun_eq_runV3 (lib : String → Bool) (c : WrapItkConfig)
    (himg : imagesOk c = true) : wrapItkRun lib c = runV3 lib c := by
  simp only [imagesOk, Bool.and_eq_true] at himg
  obtain ⟨⟨⟨hf, hm⟩, hfm⟩, hmm⟩ := himg
  simp only [wrapItkRun, hf, hm, Bool.not_true, Bool.false_eq_true, if_false]
  rw [if_neg, if_neg]
  · cases hmo : c.movingMask with
    | none => simp [hmo]
    | some m =>
      rw [hmo] at hmm
      simp only [Option.all_some] at hmm
      simp [hmo, hmm]
  · cases hfo : c.fixedMask with
    | none => simp [hfo]
    | some m =>
      rw [hfo] at hfm
      simp only [Option.all_some] at hfm
      simp [hfo, hfm]

/- Everything a successful _run_v3 guarantees about the configured pipeline. -/
theorem runV3_ok (lib : String → Bool) (c : WrapItkConfig) (r : PipelineResult)
    (hr : runV3 lib c = .ok r) :
    dispatchTransformType c = .ok r.transformType ∧
    r.gradientMagnitudeTolerance = 1 / 1000000 ∧
    r.minimumStepLength = 1 / 1000000 ∧
    r.numberOfIterations = 200 ∧
    r.relaxationFactor = 1 / 2 ∧
    r.metricMovingMaskSet = c.movingMask.isSome ∧
    r.metricFixedMaskSet = c.fixedMask.isSome := by
  unfold runV3 at hr
  split at hr
  · simp at hr
  · rename_i tt htt
    split at hr
    · simp at hr
    · split at hr
      · split at hr
        · simp at hr
        · split at hr
          · simp at hr
          · split at hr
            · simp at hr
            · injection hr with h
              subst h
              exact ⟨htt, rfl, rfl, rfl, rfl, rfl, rfl⟩
      · simp at hr

/- If any of the three known registration types is configured and the
   interpolator lookup succeeds, _run_v3 gets past its first two blocks. -/
theorem resolveInterpolator_ok (lib : String → Bool) (c : WrapItkConfig)
    (hint : c.orientedGaussianFilter.isSome = true ∨
      lib c.interpolatorName = true) :
    ∃ s, resolveInterpolator lib c = .ok s := by
  unfold resolveInterpolator
  cases hog : c.orientedGaussianFilter with
  | some g => exact ⟨_, rfl⟩
  | none =>
    rcases hint with h | h
    · rw [hog] at h
      simp at h
    · simp [h]

theorem dispatchTransformType_ok (c : WrapItkConfig)
    (hreg : c.registrationType = "Rigid" ∨ c.registrationType = "Similarity" ∨
      c.registrationType = "Affine") :
    ∃ tt, dispatchTransformType c = .ok tt := by
  unfold dispatchTransformType
  rcases hreg with h | h | h <;> simp [h]

/-- C3: if the registration_type string is not one of Rigid, Similarity,
Affine, run raises ValueError naming the unknown registration type and no
registration is executed (no pipeline result is produced); for each of the
three strings, the corresponding ITK transform type in the configured
dimension (Euler, Similarity, Affine) is the one selected for the pipeline. -/
theorem wrapItkRun_registrationType_dispatch (lib : String → Bool)
    (c : WrapItkConfig) (himg : imagesOk c = true) :
    (c.registrationType ≠ "Rigid" → c.registrationType ≠ "Similarity" →
      c.registrationType ≠ "Affine" →
      wrapItkRun lib c = .error (.valueError
        ("Registration type \x27" ++ c.registrationType ++
          "\x27 not known."))) ∧
    (∀ r, wrapItkRun lib c = .ok r →
      (c.registrationType = "Rigid" →
        r.transformType = .euler c.dimension) ∧
      (c.registrationType = "Similarity" →
        r.transformType = .similarity c.dimension) ∧
      (c.registrationType = "Affine" →
        r.transformType = .affine c.dimension)) := by
  rw [wrapItkRun_eq_runV3 lib c himg]
  constructor
  · intro h1 h2 h3
    unfold runV3 dispatchTransformType
    simp [h1, h2, h3]
  · intro r hr
    have hd := (runV3_ok lib c r hr).1
    refine ⟨?_, ?_, ?_⟩ <;> intro hreg <;>
      (rw [dispatchTransformType] at hd; simp [hreg] at hd; exact hd.symm)

/-- C7: any optimizer string other than RegularStepGradientDescent makes run
raise ValueError; any non-None optimizer_scales also raises ValueError; the
only optimizer wired into the pipeline is RegularStepGradientDescent with
gradient magnitude tolerance 1e-6, minimum step length 1e-6, 200 iterations
and relaxation factor 0.5. -/
theorem wrapItkRun_optimizer_dispatch (lib : String → Bool)
    (c : WrapItkConfig) (himg : imagesOk c = true)
    (hreg : c.registrationType = "Rigid" ∨ c.registrationType = "Similarity" ∨
      c.registrationType = "Affine")
    (hint : c.orientedGaussianFilter.isSome = true ∨
      lib c.interpolatorName = true) :
    (c.optimizer ≠ "RegularStepGradientDescent" →
      wrapItkRun lib c = .error (.valueError
        "For \x27ImageRegistrationMethod\x27 only RegularStepGradientDescent")) ∧
    (c.optimizerScales.isSome = true →
      ∃ msg, wrapItkRun lib c = .error (.valueError msg)) ∧
    (∀ r, wrapItkRun lib c = .ok r →
      r.gradientMagnitudeTolerance = 1 / 1000000 ∧
      r.minimumStepLength = 1 / 1000000 ∧
      r.numberOfIterations = 200 ∧
      r.relaxationFactor = 1 / 2) := by
  rw [wrapItkRun_eq_runV3 lib c himg]
  obtain ⟨tt, htt⟩ := dispatchTransformType_ok c hreg
  obtain ⟨s, hs⟩ := resolveInterpolator_ok lib c hint
  refine ⟨?_, ?_, ?_⟩
  · intro hopt
    unfold runV3
    rw [htt, hs]
    simp [hopt]
  · intro hsc
    by_cases hopt : c.optimizer = "RegularStepGradientDescent"
    · refine ⟨"No scales allowed for \x27ImageRegistrationMethod\x27", ?_⟩
      unfold runV3
      rw [htt, hs]
      simp [hopt, hsc]
    · refine ⟨"For \x27ImageRegistrationMethod\x27 only " ++
        "RegularStepGradientDescent", ?_⟩
      unfold runV3
      rw [htt, hs]
      simp [hopt]
  · intro r hr
    have h := runV3_ok lib c r hr
    exact ⟨h.2.1, h.2.2.1, h.2.2.2.1, h.2.2.2.2.1⟩

/-- C2 counterexample: a concrete WrapItkRegistration constructed with
use_multiresolution_framework=True and otherwise valid parameters does not
complete without raising: run raises ValueError instead of configuring the
pipeline with the shrink factors and smoothing sigmas. -/
theorem wrapItkRun_multiresolution_not_ok :
    wrapItkRun (fun _ => true)
      { fixed := { tag := 0, pixelType := "D", dimension := 3 }
        moving := { tag := 1, pixelType := "D", dimension := 3 }
        dimension := 3
        pixelType := "D"
        fixedMask := none
        movingMask := none
        registrationType := "Rigid"
        metric := "Correlation"
        interpolatorName := "Linear"
        initType := none
        optimizer := "RegularStepGradientDescent"
        useMultiresolutionFramework := true
        shrinkFactors := [2, 1]
        smoothingSigmas := [1, 0]
        orientedGaussianFilter := none
        optimizerScales := none } =
    .error (.valueError
      ("Multiresolution-Framework cannot be used with " ++
       "ImageRegistrationMethod. ImageRegistrationMethodv4 required.")) := by
  rfl

/-- C2 (amended): for every instance constructed with
use_multiresolution_framework=True and otherwise valid parameters, run raises
ValueError stating that the multi-resolution framework cannot be used with
ImageRegistrationMethod (ImageRegistrationMethodv4 would be required); the
shrink_factors and smoothing_sigmas are never marshalled into the pipeline. -/
theorem wrapItkRun_multiresolution_raises (lib : String → Bool)
    (c : WrapItkConfig) (himg : imagesOk c = true)
    (hreg : c.registrationType = "Rigid" ∨ c.registrationType = "Similarity" ∨
      c.registrationType = "Affine")
    (hint : c.orientedGaussianFilter.isSome = true ∨
      lib c.interpolatorName = true)
    (hopt : c.optimizer = "RegularStepGradientDescent")
    (hsc : c.optimizerScales = none)
    (hmet : metricKnown c = true)
    (hmr : c.useMultiresolutionFramework = true) :
    wrapItkRun lib c = .error (.valueError
      ("Multiresolution-Framework cannot be used with " ++
       "ImageRegistrationMethod. ImageRegistrationMethodv4 required.")) := by
  rw [wrapItkRun_eq_runV3 lib c himg]
  obtain ⟨tt, htt⟩ := dispatchTransformType_ok c hreg
  obtain ⟨s, hs⟩ := resolveInterpolator_ok lib c hint
  unfold runV3
  rw [htt, hs]
  simp [hopt, hsc, hmet, hmr]

/-- C2 witness: the amended theorem applied at the concrete configuration. -/
theorem wrapItkRun_multiresolution_raises_witness :
    wrapItkRun (fun _ => true)
      { fixed := { tag := 0, pixelType := "D", dimension := 3 }
        moving := { tag := 1, pixelType := "D", dimension := 3 }
        dimension := 3
        pixelType := "D"
        fixedMask := none
        movingMask := none
        registrationType := "Affine"
        metric := "MeanSquares"
        interpolatorName := "Linear"
        initType := none
        optimizer := "RegularStepGradientDescent"
        useMultiresolutionFramework := true
        shrinkFactors := [4, 2, 1]
        smoothingSigmas := [2, 1, 0]
        orientedGaussianFilter := none
        optimizerScales := none } =
    .error (.valueError
      ("Multiresolution-Framework cannot be used with " ++
       "ImageRegistrationMethod. ImageRegistrationMethodv4 required.")) :=
  wrapItkRun_multiresolution_raises (fun _ => true) _ (by decide)
    (Or.inr (Or.inr rfl)) (Or.inr rfl) rfl rfl (by decide) rfl

/-- C3 witness: the dispatch theorem applied at a concrete configuration with
the unknown registration type BSpline, and at a concrete Rigid one. -/
theorem wrapItkRun_registrationType_dispatch_witness :
    wrapItkRun (fun _ => true)
      { fixed := { tag := 0, pixelType := "D", dimension := 3 }
        moving := { tag := 1, pixelType := "D", dimension := 3 }
        dimension := 3
        pixelType := "D"
        fixedMask := none
        movingMask := none
        registrationType := "BSpline"
        metric := "Correlation"
        interpolatorName := "Linear"
        initType := none
        optimizer := "RegularStepGradientDescent"
        useMultiresolutionFramework := false
        shrinkFactors := [2, 1]
        smoothingSigmas := [1, 0]
        orientedGaussianFilter := none
        optimizerScales := none } =
    .error (.valueError
      ("Registration type \x27" ++ "BSpline" ++ "\x27 not known.")) :=
  (wrapItkRun_registrationType_dispatch (fun _ => true) _ (by decide)).1
    (by decide) (by decide) (by decide)

/-- C7 witness: the optimizer theorem applied at a concrete configuration
with the unknown optimizer string GradientDescent. -/
theorem wrapItkRun_optimizer_dispatch_witness :
    wrapItkRun (fun _ => true)
      { fixed := { tag := 0, pixelType := "D", dimension := 3 }
        moving := { tag := 1, pixelType := "D", dimension := 3 }
        dimension := 3
        pixelType := "D"
        fixedMask := none
        movingMask := none
        registrationType := "Rigid"
        metric := "Correlation"
        interpolatorName := "Linear"
        initType := none
        optimizer := "GradientDescent"
        useMultiresolutionFramework := false
        shrinkFactors := [2, 1]
        smoothingSigmas := [1, 0]
        orientedGaussianFilter := none
        optimizerScales := none } =
    .error (.valueError
      "For \x27ImageRegistrationMethod\x27 only RegularStepGradientDescent") :=
  (wrapItkRun_optimizer_dispatch (fun _ => true) _ (by decide)
    (Or.inl rfl) (Or.inr rfl)).1 (by decide)

/- os.path.join as used by NiftyReg.__init__ (directory, file name). -/
def joinPath (d name : String) : String := d ++ "/" ++ name

theorem joinPath_right_inj {d a b : String}
    (h : joinPath d a = joinPath d b) : a = b := by
  have hd : (d ++ "/").data ++ a.data = (d ++ "/").data ++ b.data := by
    have hq := congrArg String.data h
    simpa [joinPath, String.data_append] using hq
  have hab : a.data = b.data := List.append_cancel_left hd
  cases a
  cases b
  exact congrArg String.mk hab

/- The constructor arguments of the NiftyReg wrappers
   (niftyreg.py lines 24-56). -/
structure NiftyRegConfig where
  fixed : SitkImage
  moving : SitkImage
  fixedMask : Option SitkImage
  movingMask : Option SitkImage
  options : String
  subfolder : String
  ompCores : Nat
deriving DecidableEq

/- self._dir_tmp = os.path.join(DIR_TMP, subfolder); DIR_TMP comes from
   simplereg.definitions, a file not under src, so it stays a parameter. -/
def niftyRegDirTmp (DIR_TMP : String) (c : NiftyRegConfig) : String :=
  joinPath DIR_TMP c.subfolder

def niftyRegFixedStr (DIR_TMP : String) (c : NiftyRegConfig) : String :=
  joinPath (niftyRegDirTmp DIR_TMP c) "fixed.nii.gz"

def niftyRegMovingStr (DIR_TMP : String) (c : NiftyRegConfig) : String :=
  joinPath (niftyRegDirTmp DIR_TMP c) "moving.nii.gz"

def niftyRegWarpedMovingStr (DIR_TMP : String) (c : NiftyRegConfig) : String :=
  joinPath (niftyRegDirTmp DIR_TMP c) "warped_moving.nii.gz"

def niftyRegFixedMaskStr (DIR_TMP : String) (c : NiftyRegConfig) : String :=
  joinPath (niftyRegDirTmp DIR_TMP c) "fixed_mask.nii.gz"

def niftyRegMovingMaskStr (DIR_TMP : String) (c : NiftyRegConfig) : String :=
  joinPath (niftyRegDirTmp DIR_TMP c) "moving_mask.nii.gz"

def regAladinTransformStr (DIR_TMP : String) (c : NiftyRegConfig) : String :=
  joinPath (niftyRegDirTmp DIR_TMP c) "registration_transform.txt"

def regF3DCppStr (DIR_TMP : String) (c : NiftyRegConfig) : String :=
  joinPath (niftyRegDirTmp DIR_TMP c) "registration_cpp.nii.gz"

/- The nipype RegAladin command inputs set in RegAladin._run
   (niftyreg.py lines 102-114). -/
structure RegAladinCmd where
  refFile : String
  floFile : String
  resFile : String
  affFile : String
  ompCoreVal : Nat
  args : String
  rmaskFile : Option String
  fmaskFile : Option String
deriving DecidableEq

/- The nipype RegF3D command inputs set in RegF3D._run
   (niftyreg.py lines 212-224). -/
structure RegF3DCmd where
  refFile : String
  floFile : String
  resFile : String
  cppFile : String
  ompCoreVal : Nat
  args : String
  rmaskFile : Option String
  fmaskFile : Option String
deriving DecidableEq

/- The file-system effects a NiftyReg-based run performs, in order. -/
inductive FsEffect where
  | createDirectoryDeleting (dir : String)
  | writeImage (img : SitkImage) (path : String)
  | invokeRegAladin (cmd : RegAladinCmd)
  | invokeRegF3D (cmd : RegF3DCmd)
  | readImage (path : String)
deriving DecidableEq

/- NiftyReg._run (niftyreg.py lines 58-70): create DIR_TMP/subfolder deleting
   all files already in it, write the fixed and the moving image, and write
   each mask exactly when it is not None. -/
def niftyRegBaseRunTrace (DIR_TMP : String) (c : NiftyRegConfig) :
    List FsEffect :=
  [.createDirectoryDeleting (niftyRegDirTmp DIR_TMP c),
   .writeImage c.fixed (niftyRegFixedStr DIR_TMP c),
   .writeImage c.moving (niftyRegMovingStr DIR_TMP c)] ++
  (match c.fixedMask with
   | some m => [.writeImage m (niftyRegFixedMaskStr DIR_TMP c)]
   | none => []) ++
  (match c.movingMask with
   | some m => [.writeImage m (niftyRegMovingMaskStr DIR_TMP c)]
   | none => [])

def regAladinCmdOf (DIR_TMP : String) (c : NiftyRegConfig) : RegAladinCmd where
  refFile := niftyRegFixedStr DIR_TMP c
  floFile := niftyRegMovingStr DIR_TMP c
  resFile := niftyRegWarpedMovingStr DIR_TMP c
  affFile := regAladinTransformStr DIR_TMP c
  ompCoreVal := c.ompCores
  args := c.options
  rmaskFile := c.fixedMask.map fun _ => niftyRegFixedMaskStr DIR_TMP c
  fmaskFile := c.movingMask.map fun _ => niftyRegMovingMaskStr DIR_TMP c

def regF3DCmdOf (DIR_TMP : String) (c : NiftyRegConfig) : RegF3DCmd where
  refFile := niftyRegFixedStr DIR_TMP c
  floFile := niftyRegMovingStr DIR_TMP c
  resFile := niftyRegWarpedMovingStr DIR_TMP c
  cppFile := regF3DCppStr DIR_TMP c
  ompCoreVal := c.ompCores
  args := c.options
  rmaskFile := c.fixedMask.map fun _ => niftyRegFixedMaskStr DIR_TMP c
  fmaskFile := c.movingMask.map fun _ => niftyRegMovingMaskStr DIR_TMP c

/- The state a RegAladin._run leaves behind: the ordered effect trace, the
   command passed to the external binary, and the two wrapper fields set at
   niftyreg.py lines 122-125. -/
structure RegAladinResult (n : Nat) where
  trace : List FsEffect
  cmd : RegAladinCmd
  warpedMovingSitk : SitkImage
  registrationTransformSitk : SitkAffine (n + 2)

/- RegAladin._run (niftyreg.py lines 98-125) for a fixed image of dimension
   n + 2.  The external binary writes the result files; the file system
   after its invocation is modelled by the oracles readImageAt
   (sitk.ReadImage) and loadtxtAt (np.loadtxt). -/
def regAladinRun (DIR_TMP : String) (n : Nat) (c : NiftyRegConfig)
    (readImageAt : String → SitkImage)
    (loadtxtAt : String → Matrix (Fin (n + 3)) (Fin (n + 3)) ℚ) :
    RegAladinResult n where
  trace := niftyRegBaseRunTrace DIR_TMP c ++
    [.invokeRegAladin (regAladinCmdOf DIR_TMP c),
     .readImage (niftyRegWarpedMovingStr DIR_TMP c)]
  cmd := regAladinCmdOf DIR_TMP c
  warpedMovingSitk := readImageAt (niftyRegWarpedMovingStr DIR_TMP c)
  registrationTransformSitk :=
    convertToSitkTransform n (loadtxtAt (regAladinTransformStr DIR_TMP c))

/- The state a RegF3D._run leaves behind (niftyreg.py lines 208-236): the
   registration transform stored by the wrapper is the control-point-grid
   image read back from registration_cpp.nii.gz. -/
structure RegF3DResult where
  trace : List FsEffect
  cmd : RegF3DCmd
  warpedMovingSitk : SitkImage
  registrationTransformSitk : SitkImage

def regF3DRun (DIR_TMP : String) (c : NiftyRegConfig)
    (readImageAt : String → SitkImage) : RegF3DResult where
  trace := niftyRegBaseRunTrace DIR_TMP c ++
    [.invokeRegF3D (regF3DCmdOf DIR_TMP c),
     .readImage (niftyRegWarpedMovingStr DIR_TMP c),
     .readImage (regF3DCppStr DIR_TMP c)]
  cmd := regF3DCmdOf DIR_TMP c
  warpedMovingSitk := readImageAt (niftyRegWarpedMovingStr DIR_TMP c)
  registrationTransformSitk := readImageAt (regF3DCppStr DIR_TMP c)

/- The file names inside the temporary directory are pairwise distinct, so a
   path built from one name is never equal to a path built from another. -/
theorem niftyRegPaths_ne (DIR_TMP : String) (c : NiftyRegConfig) :
    niftyRegFixedMaskStr DIR_TMP c ≠ niftyRegFixedStr DIR_TMP c ∧
    niftyRegFixedMaskStr DIR_TMP c ≠ niftyRegMovingStr DIR_TMP c ∧
    niftyRegFixedMaskStr DIR_TMP c ≠ niftyRegMovingMaskStr DIR_TMP c ∧
    niftyRegMovingMaskStr DIR_TMP c ≠ niftyRegFixedStr DIR_TMP c ∧
    niftyRegMovingMaskStr DIR_TMP c ≠ niftyRegMovingStr DIR_TMP c := by
  refine ⟨?_, ?_, ?_, ?_, ?_⟩ <;>
    exact fun h => absurd (joinPath_right_inj h) (by decide)

/-- C5: for both RegAladin and RegF3D, _run first creates the temporary
subdirectory DIR_TMP/subfolder deleting all files already present in it, then
writes the fixed image to fixed.nii.gz and the moving image to moving.nii.gz
inside that directory, and only after that is the external registration
binary invoked. -/
theorem niftyReg_run_tmp_lifecycle (DIR_TMP : String) (n : Nat)
    (c : NiftyRegConfig) (readImageAt : String → SitkImage)
    (loadtxtAt : String → Matrix (Fin (n + 3)) (Fin (n + 3)) ℚ) :
    List.take 3 (regAladinRun DIR_TMP n c readImageAt loadtxtAt).trace =
      [FsEffect.createDirectoryDeleting (niftyRegDirTmp DIR_TMP c),
       FsEffect.writeImage c.fixed (niftyRegFixedStr DIR_TMP c),
       FsEffect.writeImage c.moving (niftyRegMovingStr DIR_TMP c)] ∧
    FsEffect.invokeRegAladin (regAladinCmdOf DIR_TMP c) ∈
      List.drop 3 (regAladinRun DIR_TMP n c readImageAt loadtxtAt).trace ∧
    List.take 3 (regF3DRun DIR_TMP c readImageAt).trace =
      [FsEffect.createDirectoryDeleting (niftyRegDirTmp DIR_TMP c),
       FsEffect.writeImage c.fixed (niftyRegFixedStr DIR_TMP c),
       FsEffect.writeImage c.moving (niftyRegMovingStr DIR_TMP c)] ∧
    FsEffect.invokeRegF3D (regF3DCmdOf DIR_TMP c) ∈
      List.drop 3 (regF3DRun DIR_TMP c readImageAt).trace := by
  refine ⟨?_, ?_, ?_, ?_⟩ <;>
    cases hf : c.fixedMask <;> cases hm : c.movingMask <;>
      simp [regAladinRun, regF3DRun, niftyRegBaseRunTrace, hf, hm]

/-- C6: after every successful run, the warped moving image held by the
wrapper is exactly the image read back from warped_moving.nii.gz, and the
stored registration transform is, for RegAladin, the SimpleITK affine
transform built by _convert_to_sitk_transform from the written transform
text file, and for RegF3D the control-point-grid image read back from
registration_cpp.nii.gz. -/
theorem niftyReg_results_read_back (DIR_TMP : String) (n : Nat)
    (c : NiftyRegConfig) (readImageAt : String → SitkImage)
    (loadtxtAt : String → Matrix (Fin (n + 3)) (Fin (n + 3)) ℚ) :
    (regAladinRun DIR_TMP n c readImageAt loadtxtAt).warpedMovingSitk =
      readImageAt (niftyRegWarpedMovingStr DIR_TMP c) ∧
    (regAladinRun DIR_TMP n c readImageAt
        loadtxtAt).registrationTransformSitk =
      convertToSitkTransform n (loadtxtAt (regAladinTransformStr DIR_TMP c)) ∧
    (regF3DRun DIR_TMP c readImageAt).warpedMovingSitk =
      readImageAt (niftyRegWarpedMovingStr DIR_TMP c) ∧
    (regF3DRun DIR_TMP c readImageAt).registrationTransformSitk =
      readImageAt (regF3DCppStr DIR_TMP c) :=
  ⟨rfl, rfl, rfl, rfl⟩

/- A successful wrapItkRun went through _run_v3. -/
theorem wrapItkRun_ok_runV3 (lib : String → Bool) (c : WrapItkConfig)
    (r : PipelineResult) (hr : wrapItkRun lib c = .ok r) :
    runV3 lib c = .ok r := by
  unfold wrapItkRun at hr
  split at hr
  · simp at hr
  · split at hr
    · simp at hr
    · split at hr
      · simp at hr
      · split at hr
        · simp at hr
        · exact hr

/-- C4: masks are optional in every wrapper.  In a RegAladin run the fixed
(resp. moving) mask is written to its temporary file and passed to the
command line as rmask_file (resp. fmask_file) exactly when the mask is not
None, and when a mask is None no file is written to its mask path and no mask
option is passed; in WrapItkRegistration, a successful run attaches a mask
spatial object to the metric exactly for the masks that are not None. -/
theorem masks_optional (DIR_TMP : String) (n : Nat) (c : NiftyRegConfig)
    (readImageAt : String → SitkImage)
    (loadtxtAt : String → Matrix (Fin (n + 3)) (Fin (n + 3)) ℚ)
    (lib : String → Bool) (ic : WrapItkConfig) :
    (∀ m, c.fixedMask = some m →
      FsEffect.writeImage m (niftyRegFixedMaskStr DIR_TMP c) ∈
        (regAladinRun DIR_TMP n c readImageAt loadtxtAt).trace ∧
      (regAladinCmdOf DIR_TMP c).rmaskFile =
        some (niftyRegFixedMaskStr DIR_TMP c)) ∧
    (∀ m, c.movingMask = some m →
      FsEffect.writeImage m (niftyRegMovingMaskStr DIR_TMP c) ∈
        (regAladinRun DIR_TMP n c readImageAt loadtxtAt).trace ∧
      (regAladinCmdOf DIR_TMP c).fmaskFile =
        some (niftyRegMovingMaskStr DIR_TMP c)) ∧
    (c.fixedMask = none →
      (regAladinCmdOf DIR_TMP c).rmaskFile = none ∧
      ∀ m, FsEffect.writeImage m (niftyRegFixedMaskStr DIR_TMP c) ∉
        (regAladinRun DIR_TMP n c readImageAt loadtxtAt).trace) ∧
    (c.movingMask = none →
      (regAladinCmdOf DIR_TMP c).fmaskFile = none ∧
      ∀ m, FsEffect.writeImage m (niftyRegMovingMaskStr DIR_TMP c) ∉
        (regAladinRun DIR_TMP n c readImageAt loadtxtAt).trace) ∧
    (∀ r, wrapItkRun lib ic = .ok r →
      r.metricFixedMaskSet = ic.fixedMask.isSome ∧
      r.metricMovingMaskSet = ic.movingMask.isSome) := by
  obtain ⟨h1, h2, h3, h4, h5⟩ := niftyRegPaths_ne DIR_TMP c
  refine ⟨?_, ?_, ?_, ?_, ?_⟩
  · intro m hm
    refine ⟨?_, by simp [regAladinCmdOf, hm]⟩
    simp [regAladinRun, niftyRegBaseRunTrace, hm]
  · intro m hm
    refine ⟨?_, by simp [regAladinCmdOf, hm]⟩
    simp [regAladinRun, niftyRegBaseRunTrace, hm]
  · intro hf
    refine ⟨by simp [regAladinCmdOf, hf], ?_⟩
    intro m hmem
    cases hm : c.movingMask <;>
      simp [regAladinRun, niftyRegBaseRunTrace, hf, hm, h1, h2, h3] at hmem
  · intro hmv
    refine ⟨by simp [regAladinCmdOf, hmv], ?_⟩
    intro m hmem
    cases hf : c.fixedMask <;>
      simp [regAladinRun, niftyRegBaseRunTrace, hf, hmv, h4, h5,
        Ne.symm h3] at hmem
  · intro r hr
    have h := runV3_ok lib ic r (wrapItkRun_ok_runV3 lib ic r hr)
    exact ⟨h.2.2.2.2.2.2, h.2.2.2.2.2.1⟩

/-- C4 witness: the mask theorem applied at a concrete RegAladin
configuration carrying both masks, projecting the fixed-mask conjunct. -/
theorem masks_optional_witness :
    FsEffect.writeImage { tag := 7, dimension := 3 }
        (niftyRegFixedMaskStr "tmp"
          { fixed := { tag := 1, dimension := 3 }
            moving := { tag := 2, dimension := 3 }
            fixedMask := some { tag := 7, dimension := 3 }
            movingMask := some { tag := 8, dimension := 3 }
            options := ""
            subfolder := "RegAladin"
            ompCores := 8 }) ∈
      (regAladinRun "tmp" 1
        { fixed := { tag := 1, dimension := 3 }
          moving := { tag := 2, dimension := 3 }
          fixedMask := some { tag := 7, dimension := 3 }
          movingMask := some { tag := 8, dimension := 3 }
          options := ""
          subfolder := "RegAladin"
          ompCores := 8 }
        (fun _ => { tag := 0, dimension := 3 }) (fun _ => 0)).trace ∧
    (regAladinCmdOf "tmp"
        { fixed := { tag := 1, dimension := 3 }
          moving := { tag := 2, dimension := 3 }
          fixedMask := some { tag := 7, dimension := 3 }
          movingMask := some { tag := 8, dimension := 3 }
          options := ""
          subfolder := "RegAladin"
          ompCores := 8 }).rmaskFile =
      some (niftyRegFixedMaskStr "tmp"
        { fixed := { tag := 1, dimension := 3 }
          moving := { tag := 2, dimension := 3 }
          fixedMask := some { tag := 7, dimension := 3 }
          movingMask := some { tag := 8, dimension := 3 }
          options := ""
          subfolder := "RegAladin"
          ompCores := 8 }) :=
  (masks_optional "tmp" 1 _ (fun _ => { tag := 0, dimension := 3 })
    (fun _ => 0) (fun _ => true)
    { fixed := { tag := 0, pixelType := "D", dimension := 3 }
      moving := { tag := 1, pixelType := "D", dimension := 3 }
      dimension := 3
      pixelType := "D"
      fixedMask := none
      movingMask := none
      registrationType := "Rigid"
      metric := "Correlation"
      interpolatorName := "Linear"
      initType := none
      optimizer := "RegularStepGradientDescent"
      useMultiresolutionFramework := false
      shrinkFactors := [2, 1]
      smoothingSigmas := [1, 0]
      orientedGaussianFilter := none
      optimizerScales := none }).1 _ rfl

/- RegF3D._get_transformed_fixed_sitk (niftyreg.py lines 238-242): raises
   unconditionally, whatever state the wrapper is in. -/
def regF3DGetTransformedFixedSitk (_state : Option RegF3DResult) :
    Except PyError SitkImage :=
  .error (.unboundLocalError "Not implemented for RegF3D")

/- RegF3D._get_transformed_fixed_sitk_mask (niftyreg.py lines 244-245). -/
def regF3DGetTransformedFixedSitkMask (_state : Option RegF3DResult) :
    Except PyError SitkImage :=
  .error (.unboundLocalError "Not implemented for RegF3D")

/- RegAladin._get_transformed_fixed_sitk (niftyreg.py lines 158-160):
   applies the external helper sitkh.get_transformed_sitk_image, modelled by
   the oracle transformImage, to the fixed image and the transform obtained
   from a completed run. -/
def regAladinGetTransformedFixedSitk (n : Nat)
    (transformImage : SitkImage → SitkAffine (n + 2) → SitkImage)
    (fixedSitk : SitkImage) (t : SitkAffine (n + 2)) :
    Except PyError SitkImage :=
  .ok (transformImage fixedSitk t)

/-- C9: in every state, RegF3D._get_transformed_fixed_sitk and
_get_transformed_fixed_sitk_mask raise UnboundLocalError with message
Not implemented for RegF3D, while RegAladin._get_transformed_fixed_sitk
returns the transformed fixed image without raising. -/
theorem regF3D_transformed_fixed_not_implemented :
    (∀ state, regF3DGetTransformedFixedSitk state =
      .error (.unboundLocalError "Not implemented for RegF3D")) ∧
    (∀ state, regF3DGetTransformedFixedSitkMask state =
      .error (.unboundLocalError "Not implemented for RegF3D")) ∧
    (∀ (n : Nat) (transformImage : SitkImage → SitkAffine (n + 2) → SitkImage)
        (fixedSitk : SitkImage) (t : SitkAffine (n + 2)),
      regAladinGetTransformedFixedSitk n transformImage fixedSitk t =
        .ok (transformImage fixedSitk t)) :=
  ⟨fun _ => rfl, fun _ => rfl, fun _ _ _ _ => rfl⟩

/- The two transform attributes of a WrapItkRegistration object.  A Python
   attribute slot is Option (Option Nat): the outer none means the attribute
   was never assigned (reading it raises AttributeError), some none models
   the Python value None, and some (some t) a stored transform t. -/
structure WrapItkTransformState where
  registrationTransformItkAttr : Option (Option Nat)
  registrationTransformSitkAttr : Option (Option Nat)
deriving DecidableEq

/- WrapItkRegistration.__init__ (WrapItkRegistration.py lines 20-78): line 74
   sets _registration_transform_itk = None; no line of the constructor
   assigns _registration_transform_sitk. -/
def wrapItkInitTransformState : WrapItkTransformState where
  registrationTransformItkAttr := some none
  registrationTransformSitkAttr := none

/- get_registration_transform_itk (lines 113-117): reading the attribute
   raises AttributeError when it was never assigned; otherwise the guard
   compares it against None and raises UnboundLocalError. -/
def getRegistrationTransformItk (s : WrapItkTransformState) :
    Except PyError Nat :=
  match s.registrationTransformItkAttr with
  | none => .error (.attributeError
      "WrapItkRegistration object has no attribute _registration_transform_itk")
  | some none => .error (.unboundLocalError "Execute \x27run\x27 first.")
  | some (some t) => .ok t

/- get_registration_transform_sitk (lines 99-103), same shape of guard but
   on the _registration_transform_sitk attribute. -/
def getRegistrationTransformSitk (s : WrapItkTransformState) :
    Except PyError Nat :=
  match s.registrationTransformSitkAttr with
  | none => .error (.attributeError
      "WrapItkRegistration object has no attribute _registration_transform_sitk")
  | some none => .error (.unboundLocalError "Execute \x27run\x27 first.")
  | some (some t) => .ok t

/-- C8 counterexample: on a freshly constructed WrapItkRegistration,
get_registration_transform_sitk does not raise UnboundLocalError with the
message Execute run first, contrary to the claim: the constructor never
assigns _registration_transform_sitk, so the guard itself fails when it
reads the attribute. -/
theorem getRegistrationTransformSitk_fresh_not_unbound :
    getRegistrationTransformSitk wrapItkInitTransformState ≠
      .error (.unboundLocalError "Execute \x27run\x27 first.") := by
  intro h
  exact PyError.noConfusion (Except.error.inj h)

/-- C8 (amended): on a freshly constructed WrapItkRegistration,
get_registration_transform_itk raises UnboundLocalError with the message
Execute run first, but get_registration_transform_sitk raises
AttributeError, because only _registration_transform_itk is initialized to
None in the constructor. -/
theorem fresh_transform_getters :
    getRegistrationTransformItk wrapItkInitTransformState =
      .error (.unboundLocalError "Execute \x27run\x27 first.") ∧
    getRegistrationTransformSitk wrapItkInitTransformState =
      .error (.attributeError
        ("WrapItkRegistration object has no attribute " ++
          "_registration_transform_sitk")) :=
  ⟨rfl, rfl⟩

/- The state stored by WrapperRegistration (WrapperRegistration.py lines
   34-48): the four images are handed to the SimpleItkRegistrationBase
   constructor (which stores them and defines no options operation), and
   _options is set by this class. -/
structure WrapperRegState where
  fixedSitk : Option SitkImage
  movingSitk : Option SitkImage
  fixedSitkMask : Option SitkImage
  movingSitkMask : Option SitkImage
  options : String
deriving DecidableEq

/- WrapperRegistration.__init__ (lines 34-48). -/
def wrapperRegInit (fixedSitk movingSitk fixedSitkMask movingSitkMask :
    Option SitkImage) (options : String) : WrapperRegState where
  fixedSitk := fixedSitk
  movingSitk := movingSitk
  fixedSitkMask := fixedSitkMask
  movingSitkMask := movingSitkMask
  options := options

/- WrapperRegistration.set_options (lines 57-58). -/
def set_options (s : WrapperRegState) (options : String) : WrapperRegState :=
  { s with options := options }

/- WrapperRegistration.get_options (lines 68-69). -/
def get_options (s : WrapperRegState) : String :=
  s.options

/- The operations WrapperRegistration defines on the stored options. -/
inductive WrapperOp where
  | setOptions (options : String)
  | getOptions
deriving DecidableEq

def applyWrapperOp (s : WrapperRegState) : WrapperOp → WrapperRegState
  | .setOptions o => set_options s o
  | .getOptions => s

def runWrapperOps (s : WrapperRegState) (ops : List WrapperOp) :
    WrapperRegState :=
  ops.foldl applyWrapperOp s

/- The options string most recently established by a list of operations. -/
def lastSetOptions (ops : List WrapperOp) : Option String :=
  ops.foldl (fun acc op =>
    match op with
    | WrapperOp.setOptions o => some o
    | WrapperOp.getOptions => acc) none

theorem lastSetOptions_foldl (ops : List WrapperOp) :
    ∀ acc : Option String,
      ops.foldl (fun acc op =>
        match op with
        | WrapperOp.setOptions o => some o
        | WrapperOp.getOptions => acc) acc =
      (lastSetOptions ops).or acc := by
  induction ops with
  | nil =>
    intro acc
    simp [lastSetOptions]
  | cons op rest ih =>
    intro acc
    cases op with
    | getOptions =>
      show List.foldl _ acc rest = _
      rw [ih acc]
      have hrest : lastSetOptions (WrapperOp.getOptions :: rest) =
          lastSetOptions rest := rfl
      rw [hrest]
    | setOptions o =>
      show List.foldl _ (some o) rest = _
      rw [ih (some o)]
      have hrest : lastSetOptions (WrapperOp.setOptions o :: rest) =
          List.foldl _ (some o) rest := rfl
      rw [hrest, ih (some o)]
      cases lastSetOptions rest <;> simp [Option.or]

theorem runWrapperOps_get_options (s : WrapperRegState)
    (ops : List WrapperOp) :
    get_options (runWrapperOps s ops) =
      (lastSetOptions ops).getD (get_options s) := by
  induction ops generalizing s with
  | nil => rfl
  | cons op rest ih =>
    cases op with
    | getOptions =>
      show get_options (runWrapperOps s rest) = _
      rw [ih s]
      rfl
    | setOptions o =>
      show get_options (runWrapperOps (set_options s o) rest) = _
      rw [ih (set_options s o)]
      have hcons : lastSetOptions (WrapperOp.setOptions o :: rest) =
          (lastSetOptions rest).or (some o) := by
        show List.foldl _ (some o) rest = _
        exact lastSetOptions_foldl rest (some o)
      rw [hcons]
      cases lastSetOptions rest <;> simp [Option.or, set_options, get_options]

/-- C10: options round-trip.  Immediately after construction with options o,
get_options returns o; after set_options(o), get_options returns o;
get_options itself leaves the state unchanged; and over any sequence of the
operations of the class, get_options returns the options string most
recently established (the last set_options argument, or the constructor
argument when none was issued). -/
theorem options_round_trip
    (fixedSitk movingSitk fixedSitkMask movingSitkMask : Option SitkImage)
    (o : String) (s : WrapperRegState) (ops : List WrapperOp) :
    get_options (wrapperRegInit fixedSitk movingSitk fixedSitkMask
      movingSitkMask o) = o ∧
    get_options (set_options s o) = o ∧
    applyWrapperOp s WrapperOp.getOptions = s ∧
    get_options (runWrapperOps s ops) =
      (lastSetOptions ops).getD (get_options s) :=
  ⟨rfl, rfl, rfl, runWrapperOps_get_options s ops⟩

end SimpleReg
